import Mathlib

/-!
Shallow embedding of the scenario/predicate core of the BESSER agent
framework: perception entities (`ImageEntity`, `ImageProperty`), typed
attributes, the scenario requirement leaves (`ScenarioImageEntity`,
`ScenarioImageProperty`), the boolean expression tree
(`BooleanExpression`), and the event predicate library
(`intent_matched`, `file_received`, `image_object_detected`).

Python runtime errors (ValueError, TypeError, KeyError, AttributeError)
are modelled with `Except String`; a Python function that can fall off
the end of its body without a `return` statement yields an
`Option Bool` result, where `none` is Python's `None`.  Python `float`
values are modelled as exact rationals; the claims under study only
compare scores with `>=`, which the rational order models faithfully
for the concrete values involved.
-/

deriving instance DecidableEq for Except

/-- The Python runtime types appearing in the attribute dictionaries
(`float`, `int`, `str`). -/
inductive PyType where
  | intT
  | floatT
  | strT
deriving DecidableEq, Repr

/-- A dynamically typed Python value (`Any` in the source signatures):
attribute values are `float` scores, `int` bounds or `str` descriptions. -/
inductive PyVal where
  | int (n : Int)
  | float (q : Rat)
  | str (s : String)
deriving DecidableEq, Repr

/-- The `type(value)` of the source's dynamic type checks. -/
def PyVal.typeOf : PyVal → PyType
  | .int _ => .intT
  | .float _ => .floatT
  | .str _ => .strT

/-- The concrete `ImageRequirement` subclass of a value, i.e. the
`type(self)` compared in `ImageRequirement.__eq__`: `ImageEntity` or
`ImageProperty` in the agent core (the bot generation's `ImageObject`
plays the entity role). -/
inductive ImageReqKind where
  | entity
  | property
deriving DecidableEq, Repr

/-- `ImageRequirement` (`image_requirement.py`), the base of
`ImageEntity` and `ImageProperty`, together with the attribute list the
subclasses add; the Python class hierarchy is modelled as a tagged
record. -/
structure ImageReq where
  kind : ImageReqKind
  name : String
  attributes : List (String × PyVal)
deriving DecidableEq, Repr

/-- `ImageRequirement.__eq__`: equal iff the other value has the same
concrete class and the same name; everything else is ignored. -/
def ImageReq.pyEq (self other : ImageReq) : Bool :=
  if other.kind = self.kind then self.name == other.name else false

/-- `ImageRequirement.__hash__`: `hash(self.name)`. -/
def ImageReq.pyHash (self : ImageReq) : UInt64 :=
  hash self.name

/-- An object-detection result (`ImageObjectPrediction`): a detected
entity and its confidence score.  (The bot generation names the entity
field `image_object`.) -/
structure ImageObjectPrediction where
  image_entity : ImageReq
  score : Rat
deriving DecidableEq, Repr

/-- A property-detection result (`ImagePropertyPrediction`). -/
structure ImagePropertyPrediction where
  image_property : ImageReq
  score : Rat
deriving DecidableEq, Repr

/-- The perception snapshot attached to a session after an image
recognition pass: ordered object-detection and property-detection
results. -/
structure ImagePrediction where
  image_object_predictions : List ImageObjectPrediction
  image_property_predictions : List ImagePropertyPrediction
deriving DecidableEq, Repr

/-- `Intent`: identified by its name. -/
structure Intent where
  name : String
deriving DecidableEq, Repr

/-- The value of `session.predicted_intent`: exposes the matched intent
through its `intent` field. -/
structure IntentPrediction where
  intent : Intent
deriving DecidableEq, Repr

/-- A received file descriptor: only its MIME-like `type` is consulted
by the predicates. -/
structure ReceivedFile where
  type : String
deriving DecidableEq, Repr

/-- Modelled from the spec: the per-conversation `Session` state (the
session module itself is not among the sources; its interface is
specified in the spec's external-interface section).  `flags` is a total
boolean mapping over the recognized keys; `predicted_intent`, `file` and
`image_prediction` are the collaborator-written fields, absent data
being `none`. -/
structure Session where
  flags : String → Bool
  predicted_intent : Option IntentPrediction
  file : Option ReceivedFile
  image_prediction : Option ImagePrediction

/-- `Attribute` (`attribute.py`): a named value. -/
structure Attribute where
  name : String
  value : PyVal
deriving DecidableEq, Repr

/-- `get_attribute_value`: the value of the first attribute with the
given name, `None` when there is none. -/
def getAttributeValue : List Attribute → String → Option PyVal
  | [], _ => none
  | a :: rest, n => if a.name = n then some a.value else getAttributeValue rest n

/-- Python `v == k` of an optional attribute value against an `int`
(`_min == 0`, `max != 0`): equality never raises, and `None == 0` is
`False`. -/
def pyEqInt : Option PyVal → Int → Bool
  | some (.int n), k => n == k
  | some (.float q), k => q == (k : Rat)
  | _, _ => false

/-- Python `n <= v` of a count against an optional attribute value
(`num_predictions <= _max`); raises `TypeError` when the value is not a
number. -/
def natLeVal (n : Nat) : Option PyVal → Except String Bool
  | some (.int k) => .ok (decide ((n : Int) ≤ k))
  | some (.float q) => .ok (decide ((n : Rat) ≤ q))
  | _ => .error "TypeError"

/-- Python `n >= v` of a count against an optional attribute value
(`num_predictions >= _min`, also `_min <= num_predictions`). -/
def natGeVal (n : Nat) : Option PyVal → Except String Bool
  | some (.int k) => .ok (decide (k ≤ (n : Int)))
  | some (.float q) => .ok (decide (q ≤ (n : Rat)))
  | _ => .error "TypeError"

/-- Python `a >= v` of a prediction score against an optional attribute
value (`image_object_prediction.score >= score`). -/
def ratGeVal (a : Rat) : Option PyVal → Except String Bool
  | some (.int k) => .ok (decide ((k : Rat) ≤ a))
  | some (.float q) => .ok (decide (q ≤ a))
  | _ => .error "TypeError"

/-- Python `v < k` (`min < 1` in the constructor). -/
def pyLtInt : Option PyVal → Int → Except String Bool
  | some (.int n), k => .ok (decide (n < k))
  | some (.float q), k => .ok (decide (q < (k : Rat)))
  | _, _ => .error "TypeError"

/-- Python `a > b` of two optional attribute values (`min > max` in the
constructor). -/
def pyGtVal : Option PyVal → Option PyVal → Except String Bool
  | some (.int a), some (.int b) => .ok (decide (b < a))
  | some (.int a), some (.float b) => .ok (decide (b < (a : Rat)))
  | some (.float a), some (.int b) => .ok (decide ((b : Rat) < a))
  | some (.float a), some (.float b) => .ok (decide (b < a))
  | _, _ => .error "TypeError"

/-- The allowed-attribute dictionary of `ScenarioImageEntityAttribute`. -/
def ScenarioImageEntityAttribute.dictionary : String → Option PyType
  | "score" => some .floatT
  | "min" => some .intT
  | "max" => some .intT
  | _ => none

/-- `ScenarioImageEntityAttribute.__init__`: rejects a name absent from
the dictionary, then a value whose runtime type differs from the
declared one. -/
def mkScenarioImageEntityAttribute (name : String) (value : PyVal) :
    Except String Attribute :=
  match ScenarioImageEntityAttribute.dictionary name with
  | none => .error "is not a valid ScenarioImageEntityAttribute"
  | some t =>
    if t ≠ value.typeOf then .error "must be of declared type"
    else .ok ⟨name, value⟩

/-- `ScenarioImageEntity` (`scenario_image_entity.py`): the "`min`..`max`
instances of entity X detected with score at least s" leaf. -/
structure ScenarioImageEntity where
  name : String
  image_entity : ImageReq
  attributes : List Attribute
deriving DecidableEq, Repr

/-- The attribute-building loop of `ScenarioImageEntity.__init__` over
the items of the `attributes` dict. -/
def mkScenarioImageEntityAttributes :
    List (String × PyVal) → Except String (List Attribute)
  | [] => .ok []
  | (n, v) :: rest =>
    match mkScenarioImageEntityAttribute n v with
    | .error e => .error e
    | .ok a =>
      match mkScenarioImageEntityAttributes rest with
      | .error e => .error e
      | .ok l => .ok (a :: l)

/-- Line 44-45 of `ScenarioImageEntity.__init__`: append the default
`min = 1` attribute when no `min` attribute is present. -/
def addMin (atts : List Attribute) : List Attribute :=
  if "min" ∈ atts.map Attribute.name then atts else atts ++ [⟨"min", .int 1⟩]

/-- Line 46-47 of `ScenarioImageEntity.__init__`: append the default
`max = 0` attribute when no `max` attribute is present. -/
def addMax (atts : List Attribute) : List Attribute :=
  if "max" ∈ atts.map Attribute.name then atts else atts ++ [⟨"max", .int 0⟩]

/-- The default-appending lines of `ScenarioImageEntity.__init__`. -/
def addDefaults (atts : List Attribute) : List Attribute :=
  addMax (addMin atts)

/-- `ScenarioImageEntity.__init__`: builds the attribute list, requires
`score`, appends the defaults `min = 1` and `max = 0` when missing, and
validates `min >= 1` and `min <= max` unless `max == 0`.  The
`attributes` argument is the item list of a Python dict (keys unique in
the source). -/
def mkScenarioImageEntity (name : String) (image_entity : ImageReq)
    (attributes : List (String × PyVal)) : Except String ScenarioImageEntity :=
  match mkScenarioImageEntityAttributes attributes with
  | .error e => .error e
  | .ok atts0 =>
    if "score" ∉ atts0.map Attribute.name then
      .error "Please, provide the score attribute"
    else
      match pyLtInt (getAttributeValue (addDefaults atts0) "min") 1 with
      | .error e => .error e
      | .ok true => .error "min must be > 0"
      | .ok false =>
        match pyGtVal (getAttributeValue (addDefaults atts0) "min")
            (getAttributeValue (addDefaults atts0) "max") with
        | .error e => .error e
        | .ok gt =>
          if gt && !(pyEqInt (getAttributeValue (addDefaults atts0) "max") 0) then
            .error "min must <= max (unless max = 0)"
          else
            .ok ⟨name, image_entity, addDefaults atts0⟩

/-- The filtering list comprehension of `ScenarioImageEntity.evaluate`:
keeps the object predictions whose entity equals the leaf's entity
(short-circuit `and`) and whose score is at least the `score`
attribute. -/
def filterPredictions (target : ImageReq) (score : Option PyVal) :
    List ImageObjectPrediction → Except String (List ImageObjectPrediction)
  | [] => .ok []
  | p :: rest =>
    if ImageReq.pyEq p.image_entity target then
      match ratGeVal p.score score with
      | .error e => .error e
      | .ok true =>
        match filterPredictions target score rest with
        | .error e => .error e
        | .ok l => .ok (p :: l)
      | .ok false => filterPredictions target score rest
    else filterPredictions target score rest

/-- The tail of `ScenarioImageEntity.evaluate` (its lines after the
filtering): `return False` on a zero count, then the four `if`
statements of the `min`/`max` decision table in source order, with
Python's short-circuit `and` and chained comparison. -/
def decisionTable (minV maxV : Option PyVal) (num : Nat) : Except String Bool :=
  if num = 0 then .ok false
  else
    let step4 : Except String Bool :=
      match natGeVal num minV with
      | .error e => .error e
      | .ok false => .ok false
      | .ok true =>
        match natLeVal num maxV with
        | .error e => .error e
        | .ok b => .ok b
    let step3 : Except String Bool :=
      if pyEqInt maxV 0 then
        match natGeVal num minV with
        | .error e => .error e
        | .ok true => .ok true
        | .ok false => step4
      else step4
    let step2 : Except String Bool :=
      if pyEqInt minV 0 then
        match natLeVal num maxV with
        | .error e => .error e
        | .ok true => .ok true
        | .ok false => step3
      else step3
    if pyEqInt minV 0 && pyEqInt maxV 0 then .ok true else step2

/-- `ScenarioImageEntity.evaluate`: `False` without a snapshot; otherwise
counts the qualifying detections and walks the `min`/`max` decision
table. -/
def ScenarioImageEntity.evaluate (self : ScenarioImageEntity) (session : Session) :
    Except String Bool :=
  match session.image_prediction with
  | none => .ok false
  | some pred =>
    let minV := getAttributeValue self.attributes "min"
    let maxV := getAttributeValue self.attributes "max"
    let score := getAttributeValue self.attributes "score"
    match filterPredictions self.image_entity score pred.image_object_predictions with
    | .error e => .error e
    | .ok filtered => decisionTable minV maxV filtered.length

/-- The allowed-attribute dictionary of `ScenarioImagePropertyAttribute`. -/
def ScenarioImagePropertyAttribute.dictionary : String → Option PyType
  | "score" => some .floatT
  | _ => none

/-- `ScenarioImagePropertyAttribute.__init__`. -/
def mkScenarioImagePropertyAttribute (name : String) (value : PyVal) :
    Except String Attribute :=
  match ScenarioImagePropertyAttribute.dictionary name with
  | none => .error "is not a valid ScenarioImagePropertyAttribute"
  | some t =>
    if t ≠ value.typeOf then .error "must be of declared type"
    else .ok ⟨name, value⟩

/-- `ScenarioImageProperty` (`scenario_image_property.py`): the
"property Y detected with score at least s" leaf. -/
structure ScenarioImageProperty where
  name : String
  image_property : ImageReq
  attributes : List Attribute
deriving DecidableEq, Repr

/-- The attribute-building loop of `ScenarioImageProperty.__init__`. -/
def mkScenarioImagePropertyAttributes :
    List (String × PyVal) → Except String (List Attribute)
  | [] => .ok []
  | (n, v) :: rest =>
    match mkScenarioImagePropertyAttribute n v with
    | .error e => .error e
    | .ok a =>
      match mkScenarioImagePropertyAttributes rest with
      | .error e => .error e
      | .ok l => .ok (a :: l)

/-- `ScenarioImageProperty.__init__`: builds the attribute list and
requires `score`. -/
def mkScenarioImageProperty (name : String) (image_property : ImageReq)
    (attributes : List (String × PyVal)) : Except String ScenarioImageProperty :=
  match mkScenarioImagePropertyAttributes attributes with
  | .error e => .error e
  | .ok atts =>
    if "score" ∉ atts.map Attribute.name then
      .error "Please, provide the score attribute"
    else
      .ok ⟨name, image_property, atts⟩

/-- The search loop of `ScenarioImageProperty.evaluate`: `True` on the
first property prediction equal to the leaf's property with a
sufficient score. -/
def anyPropertyMatch (target : ImageReq) (score : Option PyVal) :
    List ImagePropertyPrediction → Except String Bool
  | [] => .ok false
  | p :: rest =>
    if ImageReq.pyEq p.image_property target then
      match ratGeVal p.score score with
      | .error e => .error e
      | .ok true => .ok true
      | .ok false => anyPropertyMatch target score rest
    else anyPropertyMatch target score rest

/-- `ScenarioImageProperty.evaluate`: `False` without a snapshot,
existence check otherwise. -/
def ScenarioImageProperty.evaluate (self : ScenarioImageProperty) (session : Session) :
    Except String Bool :=
  match session.image_prediction with
  | none => .ok false
  | some pred =>
    anyPropertyMatch self.image_property (getAttributeValue self.attributes "score")
      pred.image_property_predictions

/-- `BooleanOperator` (`boolean_expression.py`). -/
inductive BooleanOperator where
  | AND
  | OR
  | NOT
deriving DecidableEq, Repr

/-- `Expression` and its subclasses as a closed tagged variant: the
`BooleanExpression` composite (operator plus ordered children) and the
two `ScenarioRequirement` leaves. -/
inductive Expression where
  | boolean (operator : BooleanOperator) (expressions : List Expression)
  | entityLeaf (e : ScenarioImageEntity)
  | propertyLeaf (p : ScenarioImageProperty)

/-- `BooleanExpression.__init__`: arity validation (`AND`/`OR` need at
least 2 children, `NOT` exactly 1). -/
def mkBooleanExpression (operator : BooleanOperator)
    (expressions : List Expression) : Except String Expression :=
  if (operator = .AND ∨ operator = .OR) ∧ expressions.length < 2 then
    .error "requires at least 2 expressions"
  else if operator = .NOT ∧ expressions.length ≠ 1 then
    .error "requires 1 expression"
  else
    .ok (.boolean operator expressions)

mutual

/-- `Expression.evaluate` dispatch: `BooleanExpression.evaluate` builds
the full list of child results and applies `all`/`any`/`not`
(`all([...])`, `any([...])`, `not expressions[0].evaluate(session)`). -/
def Expression.evaluate : Expression → Session → Except String Bool
  | .entityLeaf e, session => e.evaluate session
  | .propertyLeaf p, session => p.evaluate session
  | .boolean .AND exprs, session =>
    match evalExpressions exprs session with
    | .error e => .error e
    | .ok bs => .ok (bs.all id)
  | .boolean .OR exprs, session =>
    match evalExpressions exprs session with
    | .error e => .error e
    | .ok bs => .ok (bs.any id)
  | .boolean .NOT exprs, session =>
    match exprs with
    | [] => .error "IndexError"
    | e :: _ =>
      match e.evaluate session with
      | .error er => .error er
      | .ok b => .ok (!b)

/-- The child-result list comprehension
`[expression.evaluate(session) for expression in self.expressions]`. -/
def evalExpressions : List Expression → Session → Except String (List Bool)
  | [], _ => .ok []
  | e :: rest, session =>
    match e.evaluate session with
    | .error er => .error er
    | .ok b =>
      match evalExpressions rest session with
      | .error er => .error er
      | .ok bs => .ok (b :: bs)

end

/-- Modelled from the spec/usage: the value under the `allowed_types`
key of `event_params` — either a single MIME type string or a list of
them. -/
inductive AllowedTypes where
  | single (s : String)
  | many (xs : List String)
deriving DecidableEq, Repr

/-- The `event_params` dict of the predicate library, as a record of the
keys the library reads; `none` models an absent key (reading it raises
`KeyError`). -/
structure EventParams where
  intent : Option Intent
  allowed_types : Option AllowedTypes
  image_object : Option ImageReq
  score : Option PyVal

/-- Python `x in v` for the `allowed_types` value: list membership or
substring containment. -/
def pyInAllowed (x : String) : AllowedTypes → Bool
  | .many xs => xs.contains x
  | .single s => x.isEmpty || (s.splitOn x).length > 1

/-- Python `x == v` for the `allowed_types` value. -/
def strEqAllowed (x : String) : AllowedTypes → Bool
  | .single s => x == s
  | .many _ => false

/-- `intent_matched` (`event_library.py`): compares the target intent's
name with the predicted one when the `predicted_intent` flag is set;
otherwise the function body falls through without a `return`, yielding
Python `None`. -/
def intent_matched (session : Session) (event_params : EventParams) :
    Except String (Option Bool) :=
  if session.flags "predicted_intent" then
    match event_params.intent with
    | none => .error "KeyError"
    | some target_intent =>
      match session.predicted_intent with
      | none => .error "AttributeError"
      | some matched => .ok (some (target_intent.name == matched.intent.name))
  else
    .ok none

/-- `file_received` (`event_library.py`). -/
def file_received (session : Session) (event_params : EventParams) :
    Except String (Option Bool) :=
  if session.flags "file" then
    match event_params.allowed_types with
    | some allowed =>
      match session.file with
      | none => .error "AttributeError"
      | some f =>
        if pyInAllowed f.type allowed || strEqAllowed f.type allowed then
          .ok (some true)
        else
          .ok (some false)
    | none => .ok (some true)
  else
    .ok (some false)

/-- The search loop of `image_object_detected`. -/
def firstObjectMatch (target : ImageReq) (target_score : PyVal) :
    List ImageObjectPrediction → Except String Bool
  | [] => .ok false
  | p :: rest =>
    if ImageReq.pyEq p.image_entity target then
      match ratGeVal p.score (some target_score) with
      | .error e => .error e
      | .ok true => .ok true
      | .ok false => firstObjectMatch target target_score rest
    else firstObjectMatch target target_score rest

/-- `image_object_detected` (`event_library.py`): the final
`return False` is shared by the flag-unset path and the no-match
path. -/
def image_object_detected (session : Session) (event_params : EventParams) :
    Except String (Option Bool) :=
  if session.flags "image_prediction" then
    match event_params.image_object with
    | none => .error "KeyError"
    | some target =>
      match event_params.score with
      | none => .error "KeyError"
      | some target_score =>
        match session.image_prediction with
        | none => .error "AttributeError"
        | some pred =>
          match firstObjectMatch target target_score pred.image_object_predictions with
          | .error e => .error e
          | .ok true => .ok (some true)
          | .ok false => .ok (some false)
  else
    .ok (some false)

/-- `True` iff the modelled computation raised a Python exception. -/
def isError {α : Type} : Except String α → Bool
  | .error _ => true
  | .ok _ => false

/-- The `num_predictions` of `ScenarioImageEntity.evaluate` for a leaf
with score threshold `sc`: the number of object detections whose entity
equals the leaf's entity and whose score is at least `sc`. -/
def qualifyingCount (self : ScenarioImageEntity) (snap : ImagePrediction)
    (sc : Rat) : Nat :=
  (snap.image_object_predictions.filter
    (fun p => ImageReq.pyEq p.image_entity self.image_entity && decide (sc ≤ p.score))).length

/-- First-match lookup over the raw items of a Python attribute dict
(matches what `get_attribute_value` sees after construction). -/
def lookupRaw : List (String × PyVal) → String → Option PyVal
  | [], _ => none
  | (n, v) :: rest, k => if n = k then some v else lookupRaw rest k

/-- With a well-typed `score` attribute the filtering comprehension never
raises and computes an ordinary `List.filter`. -/
theorem filterPredictions_float (target : ImageReq) (sc : Rat) :
    ∀ l : List ImageObjectPrediction,
      filterPredictions target (some (.float sc)) l =
        .ok (l.filter fun p => ImageReq.pyEq p.image_entity target && decide (sc ≤ p.score))
  | [] => rfl
  | p :: rest => by
    simp only [filterPredictions, ratGeVal, List.filter_cons]
    by_cases h : ImageReq.pyEq p.image_entity target
    · by_cases h2 : sc ≤ p.score
      · simp [h, h2, filterPredictions_float target sc rest]
      · simp [h, h2, filterPredictions_float target sc rest]
    · simp [h, filterPredictions_float target sc rest]

/-- With well-typed `min`/`max` attributes the decision table never
raises and decides the source's four-way disjunction. -/
theorem decisionTableChar (m M : Int) (num : Nat) :
    decisionTable (some (.int m)) (some (.int M)) num =
      .ok (decide (0 < num ∧ ((m = 0 ∧ M = 0) ∨ (m = 0 ∧ (num : Int) ≤ M) ∨
        (M = 0 ∧ m ≤ (num : Int)) ∨ (m ≤ (num : Int) ∧ (num : Int) ≤ M)))) := by
  unfold decisionTable
  by_cases h0 : num = 0
  · subst h0; simp
  · by_cases hm0 : m = 0 <;> by_cases hM0 : M = 0 <;>
      by_cases h1 : (num : Int) ≤ M <;> by_cases h2 : m ≤ (num : Int) <;>
      simp [pyEqInt, natLeVal, natGeVal, h0, hm0, hM0, h1, h2, Nat.pos_of_ne_zero]

/-- Characterization of `ScenarioImageEntity.evaluate` on a session with
a snapshot, when the three attributes are present with their declared
types. -/
theorem evaluateChar (self : ScenarioImageEntity) (sc : Rat) (m M : Int)
    (hs : getAttributeValue self.attributes "score" = some (.float sc))
    (hm : getAttributeValue self.attributes "min" = some (.int m))
    (hM : getAttributeValue self.attributes "max" = some (.int M))
    (session : Session) (snap : ImagePrediction)
    (hsess : session.image_prediction = some snap) :
    self.evaluate session =
      .ok (decide (0 < qualifyingCount self snap sc ∧
        ((m = 0 ∧ M = 0) ∨
         (m = 0 ∧ (qualifyingCount self snap sc : Int) ≤ M) ∨
         (M = 0 ∧ m ≤ (qualifyingCount self snap sc : Int)) ∨
         (m ≤ (qualifyingCount self snap sc : Int) ∧ (qualifyingCount self snap sc : Int) ≤ M)))) := by
  have hfilter := filterPredictions_float self.image_entity sc snap.image_object_predictions
  simp only [ScenarioImageEntity.evaluate, hsess, hs, hm, hM, hfilter]
  rw [decisionTableChar]
  rfl

/-- With a well-typed `score` attribute the property search loop never
raises and is an ordinary existence check. -/
theorem anyPropertyMatch_float (target : ImageReq) (sc : Rat) :
    ∀ l : List ImagePropertyPrediction,
      anyPropertyMatch target (some (.float sc)) l =
        .ok (l.any fun p => ImageReq.pyEq p.image_property target && decide (sc ≤ p.score))
  | [] => rfl
  | p :: rest => by
    simp only [anyPropertyMatch, ratGeVal, List.any_cons]
    by_cases h : ImageReq.pyEq p.image_property target
    · by_cases h2 : sc ≤ p.score
      · simp [h, h2]
      · simp [h, h2, anyPropertyMatch_float target sc rest]
    · simp [h, anyPropertyMatch_float target sc rest]

def catEntity : ImageReq := ⟨.entity, "cat", []⟩

def detection : ImageObjectPrediction := ⟨catEntity, 1⟩

def snapWith (k : Nat) : ImagePrediction := ⟨List.replicate k detection, []⟩

def sessionWith (k : Nat) : Session := ⟨fun _ => false, none, none, some (snapWith k)⟩

def noSnapshotSession : Session := ⟨fun _ => false, none, none, none⟩

def entityLeaf25 : ScenarioImageEntity :=
  ⟨"leaf25", catEntity, [⟨"score", .float 1⟩, ⟨"min", .int 2⟩, ⟨"max", .int 5⟩]⟩

def entityLeafDefault : ScenarioImageEntity :=
  ⟨"leafD", catEntity, [⟨"score", .float 1⟩, ⟨"min", .int 1⟩, ⟨"max", .int 0⟩]⟩

def entityLeafZeroZero : ScenarioImageEntity :=
  ⟨"leaf00", catEntity, [⟨"score", .float 1⟩, ⟨"min", .int 0⟩, ⟨"max", .int 0⟩]⟩

/-- C1: for every `ScenarioImageEntity` leaf whose attributes carry score
threshold `sc`, bounds `m` and `M`, and every session with a perception
snapshot, with `count` the number of object detections matching the
leaf's entity at score at least `sc`: `evaluate` returns `false` when
`count = 0`, and otherwise returns `true` exactly when
`(m=0 and M=0) or (m=0 and count<=M) or (M=0 and count>=m) or
(m<=count<=M)`. -/
theorem C1_entity_decision_table (e : ScenarioImageEntity) (sc : Rat) (m M : Int)
    (session : Session) (snap : ImagePrediction)
    (hs : getAttributeValue e.attributes "score" = some (.float sc))
    (hm : getAttributeValue e.attributes "min" = some (.int m))
    (hM : getAttributeValue e.attributes "max" = some (.int M))
    (hsess : session.image_prediction = some snap) :
    (qualifyingCount e snap sc = 0 → e.evaluate session = .ok false) ∧
    (qualifyingCount e snap sc ≠ 0 →
      e.evaluate session = .ok (decide ((m = 0 ∧ M = 0) ∨
        (m = 0 ∧ (qualifyingCount e snap sc : Int) ≤ M) ∨
        (M = 0 ∧ m ≤ (qualifyingCount e snap sc : Int)) ∨
        (m ≤ (qualifyingCount e snap sc : Int) ∧ (qualifyingCount e snap sc : Int) ≤ M)))) := by
  have h := evaluateChar e sc m M hs hm hM session snap hsess
  constructor
  · intro h0; rw [h, h0]; simp
  · intro h0
    rw [h]
    have hpos : 0 < qualifyingCount e snap sc := Nat.pos_of_ne_zero h0
    congr 1
    rw [decide_eq_decide]
    omega

/-- C1 witness: with score 1, min 2, max 5 the qualifying counts 1, 3, 5,
6 evaluate to false, true, true, false, and with the defaults min 1,
max 0 a count of 100 evaluates to true. -/
theorem C1_entity_decision_table_witness :
    entityLeaf25.evaluate (sessionWith 1) = .ok false ∧
    entityLeaf25.evaluate (sessionWith 3) = .ok true ∧
    entityLeaf25.evaluate (sessionWith 5) = .ok true ∧
    entityLeaf25.evaluate (sessionWith 6) = .ok false ∧
    entityLeafDefault.evaluate (sessionWith 100) = .ok true := by
  refine ⟨?_, ?_, ?_, ?_, ?_⟩
  · rw [(C1_entity_decision_table entityLeaf25 1 2 5 (sessionWith 1) (snapWith 1)
      rfl rfl rfl rfl).2 (by decide)]
    decide
  · rw [(C1_entity_decision_table entityLeaf25 1 2 5 (sessionWith 3) (snapWith 3)
      rfl rfl rfl rfl).2 (by decide)]
    decide
  · rw [(C1_entity_decision_table entityLeaf25 1 2 5 (sessionWith 5) (snapWith 5)
      rfl rfl rfl rfl).2 (by decide)]
    decide
  · rw [(C1_entity_decision_table entityLeaf25 1 2 5 (sessionWith 6) (snapWith 6)
      rfl rfl rfl rfl).2 (by decide)]
    decide
  · rw [(C1_entity_decision_table entityLeafDefault 1 1 0 (sessionWith 100) (snapWith 100)
      rfl rfl rfl rfl).2 (by decide)]
    decide

/-- C2 counterexample: a `ScenarioImageEntity` cannot be constructed with
`min = 0` and `max = 0` — the constructor raises `min must be > 0`, so
the claim's premise of a constructed leaf with those bounds is
unsatisfiable. -/
theorem C2_min_zero_construction_rejected :
    isError (mkScenarioImageEntity "r" catEntity
      [("score", PyVal.float 1), ("min", PyVal.int 0), ("max", PyVal.int 0)]) = true := by
  decide

/-- C2 amended: constructing with `min = 0, max = 0` raises; however, a
`ScenarioImageEntity` value whose stored attributes carry `min = 0` and
`max = 0` (not obtainable through the constructor) evaluates as a
presence-only check: `true` exactly when the qualifying-detection count
is positive, hence `true` at count 1 and `false` at count 0. -/
theorem C2_presence_only (e : ScenarioImageEntity) (sc : Rat)
    (session : Session) (snap : ImagePrediction)
    (hs : getAttributeValue e.attributes "score" = some (.float sc))
    (hm : getAttributeValue e.attributes "min" = some (.int 0))
    (hM : getAttributeValue e.attributes "max" = some (.int 0))
    (hsess : session.image_prediction = some snap) :
    e.evaluate session = .ok (decide (0 < qualifyingCount e snap sc)) := by
  have h := evaluateChar e sc 0 0 hs hm hM session snap hsess
  rw [h]
  congr 1
  rw [decide_eq_decide]
  omega

/-- C2 witness: the presence-only leaf evaluates `true` with exactly one
qualifying detection and `false` with none. -/
theorem C2_presence_only_witness :
    entityLeafZeroZero.evaluate (sessionWith 1) = .ok true ∧
    entityLeafZeroZero.evaluate (sessionWith 0) = .ok false := by
  constructor
  · rw [C2_presence_only entityLeafZeroZero 1 (sessionWith 1) (snapWith 1) rfl rfl rfl rfl]
    decide
  · rw [C2_presence_only entityLeafZeroZero 1 (sessionWith 0) (snapWith 0) rfl rfl rfl rfl]
    decide

def redProperty : ImageReq := ⟨.property, "red", []⟩

def sevenTenths : Rat := ⟨7, 10, by norm_num, by norm_num⟩

def nineTenths : Rat := ⟨9, 10, by norm_num, by norm_num⟩

def propLeafRed : ScenarioImageProperty :=
  ⟨"red-leaf", redProperty, [⟨"score", .float sevenTenths⟩]⟩

def sessionProps : Session :=
  ⟨fun _ => false, none, none, some ⟨[], [⟨redProperty, nineTenths⟩]⟩⟩

/-- C5: every `ScenarioImageEntity` leaf and every
`ScenarioImageProperty` leaf evaluates to `false`, without raising, on a
session whose perception snapshot is absent. -/
theorem C5_missing_snapshot_false :
    (∀ (e : ScenarioImageEntity) (session : Session), session.image_prediction = none →
      e.evaluate session = .ok false) ∧
    (∀ (p : ScenarioImageProperty) (session : Session), session.image_prediction = none →
      p.evaluate session = .ok false) := by
  constructor
  · intro e session h
    simp [ScenarioImageEntity.evaluate, h]
  · intro p session h
    simp [ScenarioImageProperty.evaluate, h]

/-- C5 witness: concrete leaves of both kinds on a session without a
snapshot. -/
theorem C5_missing_snapshot_false_witness :
    entityLeaf25.evaluate noSnapshotSession = .ok false ∧
    propLeafRed.evaluate noSnapshotSession = .ok false :=
  ⟨C5_missing_snapshot_false.1 entityLeaf25 noSnapshotSession rfl,
   C5_missing_snapshot_false.2 propLeafRed noSnapshotSession rfl⟩

/-- C6: a `ScenarioImageProperty` leaf with score threshold 0.7 evaluates
to `true` on a session with a snapshot exactly when some
property-detection result matches the leaf's property with score at
least 0.7 (existence only), and evaluates to `false` when the session
has no snapshot. -/
theorem C6_property_existence (p : ScenarioImageProperty)
    (hs : getAttributeValue p.attributes "score" = some (.float sevenTenths)) :
    (∀ session : Session, session.image_prediction = none →
      p.evaluate session = .ok false) ∧
    (∀ (session : Session) (snap : ImagePrediction), session.image_prediction = some snap →
      (p.evaluate session = .ok true ↔
        ∃ ipp ∈ snap.image_property_predictions,
          ImageReq.pyEq ipp.image_property p.image_property = true ∧
            sevenTenths ≤ ipp.score)) := by
  constructor
  · intro session h
    simp [ScenarioImageProperty.evaluate, h]
  · intro session snap h
    simp [ScenarioImageProperty.evaluate, h, hs, anyPropertyMatch_float,
      List.any_eq_true]

/-- C6 witness: a red-property leaf at threshold 0.7 against a snapshot
holding a 0.9-scored red detection, and against a missing snapshot. -/
theorem C6_property_existence_witness :
    propLeafRed.evaluate sessionProps = .ok true ∧
    propLeafRed.evaluate noSnapshotSession = .ok false := by
  constructor
  · exact ((C6_property_existence propLeafRed rfl).2 sessionProps
      ⟨[], [⟨redProperty, nineTenths⟩]⟩ rfl).mpr
      ⟨⟨redProperty, nineTenths⟩, by simp [sessionProps], by decide, by decide⟩
  · exact (C6_property_existence propLeafRed rfl).1 noSnapshotSession rfl

theorem evalExpressions_char (session : Session) :
    ∀ exprs : List Expression, (∀ e ∈ exprs, ∃ b, e.evaluate session = .ok b) →
      ∃ bs, evalExpressions exprs session = .ok bs ∧
        (bs.all id = true ↔ ∀ e ∈ exprs, e.evaluate session = .ok true) ∧
        (bs.any id = true ↔ ∃ e ∈ exprs, e.evaluate session = .ok true) := by
  intro exprs
  induction exprs with
  | nil =>
    intro _
    exact ⟨[], rfl, by simp, by simp⟩
  | cons e rest ih =>
    intro h
    obtain ⟨b, hb⟩ := h e (by simp)
    obtain ⟨bs, hbs, hall, hany⟩ := ih (fun x hx => h x (by simp [hx]))
    refine ⟨b :: bs, ?_, ?_, ?_⟩
    · simp [evalExpressions, hb, hbs]
    · simp only [List.all_cons, Bool.and_eq_true, id, hall, List.forall_mem_cons, hb,
        Except.ok.injEq]
    · simp only [List.any_cons, Bool.or_eq_true, id, hany, List.exists_mem_cons_iff, hb,
        Except.ok.injEq]

/-- C7: for every `BooleanExpression` and session (children evaluating to
booleans): an `AND` node evaluates to `true` exactly when every child
does, an `OR` node exactly when at least one child does, and a `NOT`
node to the negation of its single child's result. -/
theorem C7_boolean_ops (session : Session) :
    (∀ exprs : List Expression, (∀ e ∈ exprs, ∃ b, e.evaluate session = .ok b) →
      ((Expression.boolean .AND exprs).evaluate session = .ok true ↔
        ∀ e ∈ exprs, e.evaluate session = .ok true)) ∧
    (∀ exprs : List Expression, (∀ e ∈ exprs, ∃ b, e.evaluate session = .ok b) →
      ((Expression.boolean .OR exprs).evaluate session = .ok true ↔
        ∃ e ∈ exprs, e.evaluate session = .ok true)) ∧
    (∀ (e : Expression) (b : Bool), e.evaluate session = .ok b →
      (Expression.boolean .NOT [e]).evaluate session = .ok (!b)) := by
  refine ⟨?_, ?_, ?_⟩
  · intro exprs h
    obtain ⟨bs, hbs, hall, _⟩ := evalExpressions_char session exprs h
    simp [Expression.evaluate, hbs, hall]
  · intro exprs h
    obtain ⟨bs, hbs, _, hany⟩ := evalExpressions_char session exprs h
    simp [Expression.evaluate, hbs, hany]
  · intro e b hb
    simp [Expression.evaluate, hb]

def propLeafBlue : ScenarioImageProperty :=
  ⟨"blue-leaf", ⟨.property, "blue", []⟩, [⟨"score", .float sevenTenths⟩]⟩

/-- C7 witness: concrete `AND`, `OR` and `NOT` nodes over property
leaves. -/
theorem C7_boolean_ops_witness :
    (Expression.boolean .AND [.propertyLeaf propLeafRed, .propertyLeaf propLeafRed]).evaluate
        sessionProps = .ok true ∧
    (Expression.boolean .OR [.propertyLeaf propLeafBlue, .propertyLeaf propLeafRed]).evaluate
        sessionProps = .ok true ∧
    (Expression.boolean .NOT [.propertyLeaf propLeafRed]).evaluate sessionProps = .ok false := by
  have hred : (Expression.propertyLeaf propLeafRed).evaluate sessionProps = .ok true := by decide
  have hblue : (Expression.propertyLeaf propLeafBlue).evaluate sessionProps = .ok false := by decide
  refine ⟨?_, ?_, ?_⟩
  · exact ((C7_boolean_ops sessionProps).1 [.propertyLeaf propLeafRed, .propertyLeaf propLeafRed]
      (by intro x hx; simp at hx; subst hx; exact ⟨true, hred⟩)).mpr
      (by intro x hx; simp at hx; subst hx; exact hred)
  · exact ((C7_boolean_ops sessionProps).2.1 [.propertyLeaf propLeafBlue, .propertyLeaf propLeafRed]
      (by intro x hx; simp at hx; rcases hx with h | h
          · exact ⟨false, h ▸ hblue⟩
          · exact ⟨true, h ▸ hred⟩)).mpr
      ⟨.propertyLeaf propLeafRed, by simp, hred⟩
  · exact (C7_boolean_ops sessionProps).2.2 (.propertyLeaf propLeafRed) true hred

/-- C8: equality and hash of perception entities are name-only — two
values of the same kind with equal names are `__eq__`-equal and share a
hash regardless of their other attributes, and values of different
kinds are never equal. -/
theorem C8_name_only_identity (a b : ImageReq) :
    (a.kind = b.kind → a.name = b.name →
      ImageReq.pyEq a b = true ∧ ImageReq.pyHash a = ImageReq.pyHash b) ∧
    (a.kind ≠ b.kind → ImageReq.pyEq a b = false) := by
  constructor
  · intro hk hn
    constructor
    · simp [ImageReq.pyEq, hk, hn]
    · simp [ImageReq.pyHash, hn]
  · intro hk
    simp [ImageReq.pyEq]
    intro h
    exact absurd h.symm hk

/-- C8 witness: same-named entities with different attribute lists are
equal with equal hashes; an entity and a property of the same name are
not equal. -/
theorem C8_name_only_identity_witness :
    ImageReq.pyEq ⟨.entity, "cat", [("description", .str "a")]⟩ ⟨.entity, "cat", []⟩ = true ∧
    ImageReq.pyHash ⟨.entity, "cat", [("description", .str "a")]⟩ =
      ImageReq.pyHash ⟨.entity, "cat", []⟩ ∧
    ImageReq.pyEq ⟨.entity, "cat", []⟩ ⟨.property, "cat", []⟩ = false := by
  refine ⟨?_, ?_, ?_⟩
  · exact ((C8_name_only_identity ⟨.entity, "cat", [("description", .str "a")]⟩
      ⟨.entity, "cat", []⟩).1 rfl rfl).1
  · exact ((C8_name_only_identity ⟨.entity, "cat", [("description", .str "a")]⟩
      ⟨.entity, "cat", []⟩).1 rfl rfl).2
  · exact (C8_name_only_identity ⟨.entity, "cat", []⟩ ⟨.property, "cat", []⟩).2 (by decide)

/-- C10: on a session whose `predicted_intent` flag is `False`,
`intent_matched` falls through without a `return` and yields Python
`None`, not the boolean `False`. -/
theorem C10_intent_matched_returns_none (session : Session) (event_params : EventParams)
    (h : session.flags "predicted_intent" = false) :
    intent_matched session event_params = .ok none ∧
    intent_matched session event_params ≠ .ok (some false) := by
  constructor
  · simp [intent_matched, h]
  · simp [intent_matched, h]

def emptyParams : EventParams := ⟨none, none, none, none⟩

/-- C10 witness: a concrete session with the flag unset. -/
theorem C10_intent_matched_returns_none_witness :
    intent_matched noSnapshotSession emptyParams = .ok none ∧
    intent_matched noSnapshotSession emptyParams ≠ .ok (some false) :=
  C10_intent_matched_returns_none noSnapshotSession emptyParams rfl

/-- C4 counterexample: with the `predicted_intent` flag unset,
`intent_matched` returns Python `None`, which is not the boolean
`False` the claim asserts. -/
theorem C4_intent_matched_not_false :
    intent_matched noSnapshotSession emptyParams = .ok none ∧
    (Except.ok (none : Option Bool) : Except String (Option Bool)) ≠ .ok (some false) := by
  constructor
  · decide
  · decide

/-- C4 amended: on a session whose relevant flag is unset none of the
predicates raises: `file_received` and `image_object_detected` return
the boolean `False`, while `intent_matched` returns the falsy value
`None` rather than `False`. -/
theorem C4_flag_unset_predicates (session : Session) (event_params : EventParams) :
    (session.flags "predicted_intent" = false →
      intent_matched session event_params = .ok none) ∧
    (session.flags "file" = false →
      file_received session event_params = .ok (some false)) ∧
    (session.flags "image_prediction" = false →
      image_object_detected session event_params = .ok (some false)) := by
  refine ⟨?_, ?_, ?_⟩
  · intro h; simp [intent_matched, h]
  · intro h; simp [file_received, h]
  · intro h; simp [image_object_detected, h]

/-- C4 witness: the three predicates on a concrete session with all
flags unset. -/
theorem C4_flag_unset_predicates_witness :
    intent_matched noSnapshotSession emptyParams = .ok none ∧
    file_received noSnapshotSession emptyParams = .ok (some false) ∧
    image_object_detected noSnapshotSession emptyParams = .ok (some false) :=
  ⟨(C4_flag_unset_predicates noSnapshotSession emptyParams).1 rfl,
   (C4_flag_unset_predicates noSnapshotSession emptyParams).2.1 rfl,
   (C4_flag_unset_predicates noSnapshotSession emptyParams).2.2 rfl⟩

theorem mkSIEAttribute_ok (n : String) (v : PyVal) (a : Attribute)
    (h : mkScenarioImageEntityAttribute n v = .ok a) :
    a = ⟨n, v⟩ ∧ ScenarioImageEntityAttribute.dictionary n = some v.typeOf := by
  unfold mkScenarioImageEntityAttribute at h
  cases hd : ScenarioImageEntityAttribute.dictionary n with
  | none => rw [hd] at h; cases h
  | some t =>
    rw [hd] at h
    by_cases ht : t = v.typeOf
    · simp [ht] at h
      exact ⟨h.symm, by rw [ht]⟩
    · simp [ht] at h

theorem mkSIEAttributes_ok :
    ∀ (l : List (String × PyVal)) (atts : List Attribute),
      mkScenarioImageEntityAttributes l = .ok atts →
      atts = l.map (fun p => ⟨p.1, p.2⟩) ∧
      ∀ a ∈ atts, ScenarioImageEntityAttribute.dictionary a.name = some a.value.typeOf := by
  intro l
  induction l with
  | nil => intro atts h; cases h; simp
  | cons p rest ih =>
    intro atts h
    unfold mkScenarioImageEntityAttributes at h
    cases ha : mkScenarioImageEntityAttribute p.1 p.2 with
    | error er => rw [ha] at h; cases h
    | ok a =>
      rw [ha] at h
      cases hr : mkScenarioImageEntityAttributes rest with
      | error er => rw [hr] at h; cases h
      | ok l2 =>
        rw [hr] at h
        cases h
        obtain ⟨ha1, ha2⟩ := mkSIEAttribute_ok p.1 p.2 a ha
        obtain ⟨hl1, hl2⟩ := ih l2 hr
        subst ha1
        constructor
        · simp [hl1]
        · intro x hx
          rcases List.mem_cons.mp hx with h1 | h1
          · subst h1; exact ha2
          · exact hl2 x h1

theorem mkSIEAttributes_error_of_mem (n : String) (v : PyVal) :
    ∀ l : List (String × PyVal), (n, v) ∈ l →
      isError (mkScenarioImageEntityAttribute n v) = true →
      isError (mkScenarioImageEntityAttributes l) = true := by
  intro l
  induction l with
  | nil => intro h; cases h
  | cons p rest ih =>
    intro hmem herr
    unfold mkScenarioImageEntityAttributes
    rcases List.mem_cons.mp hmem with h1 | h1
    · subst h1
      cases ha : mkScenarioImageEntityAttribute n v with
      | error er => simp [isError]
      | ok a => rw [ha] at herr; cases herr
    · cases ha : mkScenarioImageEntityAttribute p.1 p.2 with
      | error er => simp [isError]
      | ok a =>
        have := ih h1 herr
        cases hr : mkScenarioImageEntityAttributes rest with
        | error er => simp [isError]
        | ok l2 => rw [hr] at this; cases this

theorem getAttributeValue_append (l l' : List Attribute) (n : String) :
    getAttributeValue (l ++ l') n =
      (getAttributeValue l n).or (getAttributeValue l' n) := by
  induction l with
  | nil => simp [getAttributeValue]
  | cons a rest ih =>
    by_cases h : a.name = n
    · simp [getAttributeValue, h]
    · simp [getAttributeValue, h, ih]

theorem getAttributeValue_map (l : List (String × PyVal)) (n : String) :
    getAttributeValue (l.map fun p => ⟨p.1, p.2⟩) n = lookupRaw l n := by
  induction l with
  | nil => rfl
  | cons p rest ih =>
    by_cases h : p.1 = n
    · simp [getAttributeValue, lookupRaw, h]
    · simp [getAttributeValue, lookupRaw, h, ih]

theorem getAttributeValue_mem :
    ∀ (l : List Attribute) (n : String) (v : PyVal),
      getAttributeValue l n = some v → (⟨n, v⟩ : Attribute) ∈ l := by
  intro l
  induction l with
  | nil => intro n v h; cases h
  | cons a rest ih =>
    intro n v h
    unfold getAttributeValue at h
    by_cases he : a.name = n
    · rw [if_pos he] at h
      cases h
      have : ({ name := n, value := a.value } : Attribute) = a := by
        cases a
        simp_all
      rw [this]
      exact List.mem_cons_self a rest
    · rw [if_neg he] at h
      exact List.mem_cons_of_mem a (ih n v h)

theorem getAttributeValue_isSome (l : List Attribute) (n : String)
    (h : n ∈ l.map Attribute.name) : ∃ v, getAttributeValue l n = some v := by
  induction l with
  | nil => simp at h
  | cons a rest ih =>
    by_cases he : a.name = n
    · exact ⟨a.value, by simp [getAttributeValue, he]⟩
    · simp at h
      rcases h with h1 | h1
      · exact absurd h1.symm he
      · obtain ⟨v, hv⟩ := ih (by simpa using h1)
        exact ⟨v, by simp [getAttributeValue, he, hv]⟩

theorem lookupRaw_name_mem :
    ∀ (l : List (String × PyVal)) (k : String) (v : PyVal),
      lookupRaw l k = some v → k ∈ l.map Prod.fst := by
  intro l
  induction l with
  | nil => intro k v h; cases h
  | cons p rest ih =>
    intro k v h
    unfold lookupRaw at h
    by_cases he : p.1 = k
    · simp [he]
    · rw [if_neg he] at h
      simp [ih k v h]

theorem getAttributeValue_none (l : List Attribute) (n : String)
    (h : n ∉ l.map Attribute.name) : getAttributeValue l n = none := by
  induction l with
  | nil => rfl
  | cons a rest ih =>
    simp at h
    have hne : ¬a.name = n := fun he => h.1 he.symm
    simp [getAttributeValue, hne, ih (by simpa using h.2)]

theorem addMin_lookup_some (atts : List Attribute) (n : String) (v : PyVal)
    (h : getAttributeValue atts n = some v) :
    getAttributeValue (addMin atts) n = some v := by
  unfold addMin
  split
  · exact h
  · simp [getAttributeValue_append, h, Option.or]

theorem addMax_lookup_some (atts : List Attribute) (n : String) (v : PyVal)
    (h : getAttributeValue atts n = some v) :
    getAttributeValue (addMax atts) n = some v := by
  unfold addMax
  split
  · exact h
  · simp [getAttributeValue_append, h, Option.or]

theorem addMin_lookup_min (atts : List Attribute) :
    getAttributeValue (addMin atts) "min" =
      if "min" ∈ atts.map Attribute.name then getAttributeValue atts "min"
      else some (.int 1) := by
  unfold addMin
  split
  · rfl
  · simp [getAttributeValue_append, getAttributeValue_none atts "min" (by assumption),
      Option.or, getAttributeValue]

theorem addMax_lookup_max (atts : List Attribute) :
    getAttributeValue (addMax atts) "max" =
      if "max" ∈ atts.map Attribute.name then getAttributeValue atts "max"
      else some (.int 0) := by
  unfold addMax
  split
  · rfl
  · simp [getAttributeValue_append, getAttributeValue_none atts "max" (by assumption),
      Option.or, getAttributeValue]

theorem addMin_lookup_max (atts : List Attribute) :
    getAttributeValue (addMin atts) "max" = getAttributeValue atts "max" := by
  unfold addMin
  split
  · rfl
  · rw [getAttributeValue_append]
    cases h : getAttributeValue atts "max" with
    | some v => simp [Option.or]
    | none => simp [Option.or, getAttributeValue]

theorem addMin_names (atts : List Attribute) :
    (addMin atts).map Attribute.name =
      atts.map Attribute.name ++
        (if "min" ∈ atts.map Attribute.name then [] else ["min"]) := by
  unfold addMin
  split
  · simp
  · simp

theorem addMax_names (atts : List Attribute) :
    (addMax atts).map Attribute.name =
      atts.map Attribute.name ++
        (if "max" ∈ atts.map Attribute.name then [] else ["max"]) := by
  unfold addMax
  split
  · simp
  · simp

theorem addMin_valid (atts : List Attribute)
    (h : ∀ a ∈ atts, ScenarioImageEntityAttribute.dictionary a.name = some a.value.typeOf) :
    ∀ a ∈ addMin atts,
      ScenarioImageEntityAttribute.dictionary a.name = some a.value.typeOf := by
  intro a ha
  unfold addMin at ha
  split at ha
  · exact h a ha
  · rcases List.mem_append.mp ha with h1 | h1
    · exact h a h1
    · simp at h1
      subst h1
      rfl

theorem addMax_valid (atts : List Attribute)
    (h : ∀ a ∈ atts, ScenarioImageEntityAttribute.dictionary a.name = some a.value.typeOf) :
    ∀ a ∈ addMax atts,
      ScenarioImageEntityAttribute.dictionary a.name = some a.value.typeOf := by
  intro a ha
  unfold addMax at ha
  split at ha
  · exact h a ha
  · rcases List.mem_append.mp ha with h1 | h1
    · exact h a h1
    · simp at h1
      subst h1
      rfl

theorem typeOf_int (v : PyVal) (h : v.typeOf = .intT) : ∃ n, v = .int n := by
  cases v with
  | int n => exact ⟨n, rfl⟩
  | float q => cases h
  | str s => cases h

theorem typeOf_float (v : PyVal) (h : v.typeOf = .floatT) : ∃ q, v = .float q := by
  cases v with
  | int n => cases h
  | float q => exact ⟨q, rfl⟩
  | str s => cases h

/-- Structure of a successfully constructed `ScenarioImageEntity`: the
stored attributes are the input ones plus the missing defaults, `min`
and `max` are present as validated integers, `score` is present as a
validated float, and the range checks hold. -/
theorem mkScenarioImageEntity_ok_struct (name : String) (ent : ImageReq)
    (attrs : List (String × PyVal)) (e : ScenarioImageEntity)
    (hok : mkScenarioImageEntity name ent attrs = .ok e) :
    ∃ m M : Int,
      getAttributeValue e.attributes "min" = some (.int m) ∧
      getAttributeValue e.attributes "max" = some (.int M) ∧
      1 ≤ m ∧ (M = 0 ∨ m ≤ M) ∧
      (∃ sc : Rat, getAttributeValue e.attributes "score" = some (.float sc)) ∧
      e.attributes = addDefaults (attrs.map fun p => ⟨p.1, p.2⟩) ∧
      "score" ∈ attrs.map Prod.fst := by
  unfold mkScenarioImageEntity at hok
  cases hA : mkScenarioImageEntityAttributes attrs with
  | error er => rw [hA] at hok; cases hok
  | ok atts0 =>
    rw [hA] at hok
    simp only [] at hok
    obtain ⟨hmap, hvalid⟩ := mkSIEAttributes_ok attrs atts0 hA
    by_cases hscore : "score" ∈ atts0.map Attribute.name
    case neg => rw [if_pos hscore] at hok; cases hok
    rw [if_neg (not_not_intro hscore)] at hok
    have hvalid2 : ∀ a ∈ addDefaults atts0,
        ScenarioImageEntityAttribute.dictionary a.name = some a.value.typeOf :=
      addMax_valid _ (addMin_valid _ hvalid)
    have hminmem : "min" ∈ (addDefaults atts0).map Attribute.name := by
      rw [addDefaults, addMax_names, addMin_names]
      by_cases h1 : "min" ∈ atts0.map Attribute.name <;> simp [h1]
    obtain ⟨vmin, hvmin⟩ := getAttributeValue_isSome _ _ hminmem
    obtain ⟨m, rfl⟩ : ∃ n, vmin = PyVal.int n := by
      have := hvalid2 _ (getAttributeValue_mem _ _ _ hvmin)
      simp [ScenarioImageEntityAttribute.dictionary] at this
      exact typeOf_int vmin this.symm
    have hmaxmem : "max" ∈ (addDefaults atts0).map Attribute.name := by
      rw [addDefaults, addMax_names]
      by_cases h1 : "max" ∈ (addMin atts0).map Attribute.name <;> simp [h1]
    obtain ⟨vmax, hvmax⟩ := getAttributeValue_isSome _ _ hmaxmem
    obtain ⟨M, rfl⟩ : ∃ n, vmax = PyVal.int n := by
      have := hvalid2 _ (getAttributeValue_mem _ _ _ hvmax)
      simp [ScenarioImageEntityAttribute.dictionary] at this
      exact typeOf_int vmax this.symm
    obtain ⟨vsc, hvsc⟩ := getAttributeValue_isSome _ _ hscore
    have hvsc2 : getAttributeValue (addDefaults atts0) "score" = some vsc :=
      addMax_lookup_some _ _ _ (addMin_lookup_some _ _ _ hvsc)
    obtain ⟨sc, rfl⟩ : ∃ q, vsc = PyVal.float q := by
      have := hvalid2 _ (getAttributeValue_mem _ _ _ hvsc2)
      simp [ScenarioImageEntityAttribute.dictionary] at this
      exact typeOf_float vsc this.symm
    rw [hvmin, hvmax] at hok
    simp only [pyLtInt, pyGtVal, pyEqInt] at hok
    by_cases hm1 : m < 1
    · simp [hm1] at hok
    rw [decide_eq_false hm1] at hok
    simp only [] at hok
    by_cases hMm : M < m <;> by_cases hM0 : M = 0 <;> simp [hMm, hM0] at hok <;>
    · subst hok
      exact ⟨m, M, hvmin, hvmax, by omega, by omega, ⟨sc, hvsc2⟩, by rw [hmap], by
        rw [hmap] at hscore; simpa using hscore⟩

/-- `True` iff an optional attribute value is a Python `float`. -/
def isFloatVal : Option PyVal → Bool
  | some (.float _) => true
  | _ => false

/-- `True` iff an optional attribute value is a Python `int`. -/
def isIntVal : Option PyVal → Bool
  | some (.int _) => true
  | _ => false

theorem names_map_fst (l : List (String × PyVal)) :
    (l.map fun p => (⟨p.1, p.2⟩ : Attribute)).map Attribute.name = l.map Prod.fst := by
  induction l with
  | nil => rfl
  | cons p rest ih => simp [ih]

/-- C9: every `ScenarioImageEntity` built by a successful constructor
call (on a dict input, whose keys are unique) stores `score`, `min` and
`max` exactly once each with their declared types, satisfies
`min >= 1` and `max = 0 or min <= max`, and therefore its `evaluate`,
on any session with a snapshot, is equivalent to
`count > 0 and (if max = 0 then count >= min else min <= count <= max)`
— the two `min = 0` branches of the decision table are unreachable. -/
theorem C9_constructor_invariants (name : String) (ent : ImageReq)
    (attrs : List (String × PyVal)) (e : ScenarioImageEntity)
    (hnodup : (attrs.map Prod.fst).Nodup)
    (hok : mkScenarioImageEntity name ent attrs = .ok e) :
    isFloatVal (getAttributeValue e.attributes "score") = true ∧
    isIntVal (getAttributeValue e.attributes "min") = true ∧
    isIntVal (getAttributeValue e.attributes "max") = true ∧
    (e.attributes.map Attribute.name).count "score" = 1 ∧
    (e.attributes.map Attribute.name).count "min" = 1 ∧
    (e.attributes.map Attribute.name).count "max" = 1 ∧
    ∀ m M : Int, getAttributeValue e.attributes "min" = some (.int m) →
      getAttributeValue e.attributes "max" = some (.int M) →
      1 ≤ m ∧ (M = 0 ∨ m ≤ M) ∧
      ∀ sc : Rat, getAttributeValue e.attributes "score" = some (.float sc) →
        ∀ (session : Session) (snap : ImagePrediction), session.image_prediction = some snap →
          e.evaluate session = .ok (decide (0 < qualifyingCount e snap sc ∧
            (if M = 0 then m ≤ (qualifyingCount e snap sc : Int)
             else m ≤ (qualifyingCount e snap sc : Int) ∧
               (qualifyingCount e snap sc : Int) ≤ M))) := by
  obtain ⟨m, M, hvmin, hvmax, hm1, hMOr, ⟨sc, hvsc⟩, hatts, hscoremem⟩ :=
    mkScenarioImageEntity_ok_struct name ent attrs e hok
  have hnames : e.attributes.map Attribute.name =
      attrs.map Prod.fst ++
        ((if "min" ∈ attrs.map Prod.fst then [] else ["min"]) ++
         (if "max" ∈ attrs.map Prod.fst then [] else ["max"])) := by
    rw [hatts, addDefaults, addMax_names, addMin_names, names_map_fst]
    by_cases h1 : "min" ∈ attrs.map Prod.fst <;> by_cases h2 : "max" ∈ attrs.map Prod.fst <;>
      simp [h1, h2]
  refine ⟨by simp [hvsc, isFloatVal], by simp [hvmin, isIntVal], by simp [hvmax, isIntVal],
    ?_, ?_, ?_, ?_⟩
  · rw [hnames]
    by_cases h1 : "min" ∈ attrs.map Prod.fst <;> by_cases h2 : "max" ∈ attrs.map Prod.fst <;>
      simp [h1, h2, List.count_append, List.count_eq_one_of_mem hnodup hscoremem,
        List.count_cons, List.count_nil]
  · rw [hnames]
    by_cases h1 : "min" ∈ attrs.map Prod.fst <;> by_cases h2 : "max" ∈ attrs.map Prod.fst <;>
      simp [h1, h2, List.count_append, List.count_eq_one_of_mem hnodup,
        List.count_cons, List.count_nil, List.count_eq_zero]
  · rw [hnames]
    by_cases h1 : "min" ∈ attrs.map Prod.fst <;> by_cases h2 : "max" ∈ attrs.map Prod.fst <;>
      simp [h1, h2, List.count_append, List.count_eq_one_of_mem hnodup,
        List.count_cons, List.count_nil, List.count_eq_zero]
  · intro m2 M2 hm2 hM2
    rw [hvmin] at hm2
    injection hm2 with hm2
    injection hm2 with hm2
    rw [hvmax] at hM2
    injection hM2 with hM2
    injection hM2 with hM2
    subst hm2
    subst hM2
    refine ⟨by omega, hMOr, ?_⟩
    intro sc2 hsc2 session snap hsess
    rw [hvsc] at hsc2
    injection hsc2 with hsc2
    injection hsc2 with hsc2
    subst hsc2
    rw [evaluateChar e sc m M hvsc hvmin hvmax session snap hsess]
    congr 1
    rw [decide_eq_decide]
    by_cases hM0 : M = 0 <;> simp [hM0] <;> omega

def eW : ScenarioImageEntity :=
  ⟨"w", catEntity, [⟨"score", .float 1⟩, ⟨"min", .int 1⟩, ⟨"max", .int 0⟩]⟩

/-- C9 witness: the constructor applied to `{score: 1.0}` yields the
defaulted attribute list, and the resulting leaf evaluates `true` on one
qualifying detection. -/
theorem C9_constructor_invariants_witness :
    (eW.attributes.map Attribute.name).count "score" = 1 ∧
    (eW.attributes.map Attribute.name).count "min" = 1 ∧
    (eW.attributes.map Attribute.name).count "max" = 1 ∧
    eW.evaluate (sessionWith 1) = .ok true := by
  have h := C9_constructor_invariants "w" catEntity [("score", PyVal.float 1)] eW
    (by simp) (by rfl)
  refine ⟨h.2.2.2.1, h.2.2.2.2.1, h.2.2.2.2.2.1, ?_⟩
  have h2 := (h.2.2.2.2.2.2 1 0 rfl rfl).2.2 1 rfl (sessionWith 1) (snapWith 1) rfl
  rw [h2]
  decide

theorem mkSIPAttribute_error (n : String) (v : PyVal)
    (h : ScenarioImagePropertyAttribute.dictionary n = none ∨
      ∃ t, ScenarioImagePropertyAttribute.dictionary n = some t ∧ t ≠ v.typeOf) :
    isError (mkScenarioImagePropertyAttribute n v) = true := by
  unfold mkScenarioImagePropertyAttribute
  rcases h with h | ⟨t, h1, h2⟩
  · rw [h]; rfl
  · rw [h1]; simp [h2, isError]

theorem mkSIEAttribute_error (n : String) (v : PyVal)
    (h : ScenarioImageEntityAttribute.dictionary n = none ∨
      ∃ t, ScenarioImageEntityAttribute.dictionary n = some t ∧ t ≠ v.typeOf) :
    isError (mkScenarioImageEntityAttribute n v) = true := by
  unfold mkScenarioImageEntityAttribute
  rcases h with h | ⟨t, h1, h2⟩
  · rw [h]; rfl
  · rw [h1]; simp [h2, isError]

theorem mkSIPAttributes_ok :
    ∀ (l : List (String × PyVal)) (atts : List Attribute),
      mkScenarioImagePropertyAttributes l = .ok atts →
      atts.map Attribute.name = l.map Prod.fst := by
  intro l
  induction l with
  | nil => intro atts h; cases h; simp
  | cons p rest ih =>
    intro atts h
    unfold mkScenarioImagePropertyAttributes at h
    cases ha : mkScenarioImagePropertyAttribute p.1 p.2 with
    | error er => rw [ha] at h; cases h
    | ok a =>
      rw [ha] at h
      cases hr : mkScenarioImagePropertyAttributes rest with
      | error er => rw [hr] at h; cases h
      | ok l2 =>
        rw [hr] at h
        cases h
        have ha2 : a.name = p.1 := by
          unfold mkScenarioImagePropertyAttribute at ha
          cases hd : ScenarioImagePropertyAttribute.dictionary p.1 with
          | none => rw [hd] at ha; cases ha
          | some t =>
            rw [hd] at ha
            by_cases ht : t = p.2.typeOf
            · simp [ht] at ha; rw [← ha]
            · simp [ht] at ha
        simp [ha2, ih l2 hr]

theorem mkSIPAttributes_error_of_mem (n : String) (v : PyVal) :
    ∀ l : List (String × PyVal), (n, v) ∈ l →
      isError (mkScenarioImagePropertyAttribute n v) = true →
      isError (mkScenarioImagePropertyAttributes l) = true := by
  intro l
  induction l with
  | nil => intro h; cases h
  | cons p rest ih =>
    intro hmem herr
    unfold mkScenarioImagePropertyAttributes
    rcases List.mem_cons.mp hmem with h1 | h1
    · subst h1
      cases ha : mkScenarioImagePropertyAttribute n v with
      | error er => simp [isError]
      | ok a => rw [ha] at herr; cases herr
    · cases ha : mkScenarioImagePropertyAttribute p.1 p.2 with
      | error er => simp [isError]
      | ok a =>
        have := ih h1 herr
        cases hr : mkScenarioImagePropertyAttributes rest with
        | error er => simp [isError]
        | ok l2 => rw [hr] at this; cases this

theorem mkSIE_error_of_attrs (name : String) (ent : ImageReq)
    (attrs : List (String × PyVal))
    (h : isError (mkScenarioImageEntityAttributes attrs) = true) :
    isError (mkScenarioImageEntity name ent attrs) = true := by
  unfold mkScenarioImageEntity
  cases hA : mkScenarioImageEntityAttributes attrs with
  | error er => rfl
  | ok atts0 => rw [hA] at h; cases h

theorem mkSIP_error_of_attrs (name : String) (prop : ImageReq)
    (attrs : List (String × PyVal))
    (h : isError (mkScenarioImagePropertyAttributes attrs) = true) :
    isError (mkScenarioImageProperty name prop attrs) = true := by
  unfold mkScenarioImageProperty
  cases hA : mkScenarioImagePropertyAttributes attrs with
  | error er => rfl
  | ok atts => rw [hA] at h; cases h

theorem mkSIE_error_no_score (name : String) (ent : ImageReq)
    (attrs : List (String × PyVal)) (h : "score" ∉ attrs.map Prod.fst) :
    isError (mkScenarioImageEntity name ent attrs) = true := by
  unfold mkScenarioImageEntity
  cases hA : mkScenarioImageEntityAttributes attrs with
  | error er => rfl
  | ok atts0 =>
    simp only []
    obtain ⟨hmap, _⟩ := mkSIEAttributes_ok attrs atts0 hA
    rw [if_pos (by rw [hmap, names_map_fst]; exact h)]
    rfl

theorem mkSIP_error_no_score (name : String) (prop : ImageReq)
    (attrs : List (String × PyVal)) (h : "score" ∉ attrs.map Prod.fst) :
    isError (mkScenarioImageProperty name prop attrs) = true := by
  unfold mkScenarioImageProperty
  cases hA : mkScenarioImagePropertyAttributes attrs with
  | error er => rfl
  | ok atts =>
    simp only []
    rw [if_pos (by rw [mkSIPAttributes_ok attrs atts hA]; exact h)]
    rfl

theorem mkSIE_error_min_lt_one (name : String) (ent : ImageReq)
    (attrs : List (String × PyVal)) (m : Int)
    (hmin : lookupRaw attrs "min" = some (.int m)) (hm : m < 1) :
    isError (mkScenarioImageEntity name ent attrs) = true := by
  unfold mkScenarioImageEntity
  cases hA : mkScenarioImageEntityAttributes attrs with
  | error er => rfl
  | ok atts0 =>
    simp only []
    obtain ⟨hmap, hvalid⟩ := mkSIEAttributes_ok attrs atts0 hA
    by_cases hscore : "score" ∈ atts0.map Attribute.name
    case neg => rw [if_pos hscore]; rfl
    rw [if_neg (not_not_intro hscore)]
    have h0 : getAttributeValue atts0 "min" = some (.int m) := by
      rw [hmap, getAttributeValue_map, hmin]
    have h1 : getAttributeValue (addDefaults atts0) "min" = some (.int m) :=
      addMax_lookup_some _ _ _ (addMin_lookup_some _ _ _ h0)
    rw [h1]
    simp [pyLtInt, hm, isError]

theorem mkSIE_error_min_gt_max (name : String) (ent : ImageReq)
    (attrs : List (String × PyVal)) (m M : Int)
    (hmin : lookupRaw attrs "min" = some (.int m))
    (hmax : lookupRaw attrs "max" = some (.int M))
    (hMm : M < m) (hM0 : M ≠ 0) :
    isError (mkScenarioImageEntity name ent attrs) = true := by
  unfold mkScenarioImageEntity
  cases hA : mkScenarioImageEntityAttributes attrs with
  | error er => rfl
  | ok atts0 =>
    simp only []
    obtain ⟨hmap, hvalid⟩ := mkSIEAttributes_ok attrs atts0 hA
    by_cases hscore : "score" ∈ atts0.map Attribute.name
    case neg => rw [if_pos hscore]; rfl
    rw [if_neg (not_not_intro hscore)]
    have h0 : getAttributeValue atts0 "min" = some (.int m) := by
      rw [hmap, getAttributeValue_map, hmin]
    have h1 : getAttributeValue (addDefaults atts0) "min" = some (.int m) :=
      addMax_lookup_some _ _ _ (addMin_lookup_some _ _ _ h0)
    have h2 : getAttributeValue atts0 "max" = some (.int M) := by
      rw [hmap, getAttributeValue_map, hmax]
    have h3 : getAttributeValue (addDefaults atts0) "max" = some (.int M) := by
      rw [addDefaults]
      exact addMax_lookup_some _ _ _ (by rw [addMin_lookup_max]; exact h2)
    rw [h1, h3]
    simp only [pyLtInt, pyGtVal, pyEqInt]
    by_cases hm1 : m < 1
    · simp [hm1, isError]
    · simp [hm1, hMm, hM0, isError]

/-- C3: every validation failure is raised at construction time:
`AND`/`OR` with fewer than 2 children and `NOT` with other than 1 child
are rejected; a scenario leaf with an attribute name outside its
dictionary, or a value of the wrong runtime type, or without the
mandatory `score`, is rejected; a `ScenarioImageEntity` with `min < 1`,
or with `min > max` while `max != 0`, is rejected. -/
theorem C3_construction_errors :
    (∀ exprs : List Expression, exprs.length < 2 →
      isError (mkBooleanExpression .AND exprs) = true ∧
      isError (mkBooleanExpression .OR exprs) = true) ∧
    (∀ exprs : List Expression, exprs.length ≠ 1 →
      isError (mkBooleanExpression .NOT exprs) = true) ∧
    (∀ (name : String) (ent : ImageReq) (attrs : List (String × PyVal)) (n : String)
        (v : PyVal), (n, v) ∈ attrs → ScenarioImageEntityAttribute.dictionary n = none →
      isError (mkScenarioImageEntity name ent attrs) = true) ∧
    (∀ (name : String) (ent : ImageReq) (attrs : List (String × PyVal)) (n : String)
        (v : PyVal) (t : PyType), (n, v) ∈ attrs →
      ScenarioImageEntityAttribute.dictionary n = some t → t ≠ v.typeOf →
      isError (mkScenarioImageEntity name ent attrs) = true) ∧
    (∀ (name : String) (prop : ImageReq) (attrs : List (String × PyVal)) (n : String)
        (v : PyVal), (n, v) ∈ attrs → ScenarioImagePropertyAttribute.dictionary n = none →
      isError (mkScenarioImageProperty name prop attrs) = true) ∧
    (∀ (name : String) (prop : ImageReq) (attrs : List (String × PyVal)) (n : String)
        (v : PyVal) (t : PyType), (n, v) ∈ attrs →
      ScenarioImagePropertyAttribute.dictionary n = some t → t ≠ v.typeOf →
      isError (mkScenarioImageProperty name prop attrs) = true) ∧
    (∀ (name : String) (ent : ImageReq) (attrs : List (String × PyVal)),
      "score" ∉ attrs.map Prod.fst →
      isError (mkScenarioImageEntity name ent attrs) = true) ∧
    (∀ (name : String) (prop : ImageReq) (attrs : List (String × PyVal)),
      "score" ∉ attrs.map Prod.fst →
      isError (mkScenarioImageProperty name prop attrs) = true) ∧
    (∀ (name : String) (ent : ImageReq) (attrs : List (String × PyVal)) (m : Int),
      lookupRaw attrs "min" = some (.int m) → m < 1 →
      isError (mkScenarioImageEntity name ent attrs) = true) ∧
    (∀ (name : String) (ent : ImageReq) (attrs : List (String × PyVal)) (m M : Int),
      lookupRaw attrs "min" = some (.int m) → lookupRaw attrs "max" = some (.int M) →
      M < m → M ≠ 0 →
      isError (mkScenarioImageEntity name ent attrs) = true) := by
  refine ⟨?_, ?_, ?_, ?_, ?_, ?_, ?_, ?_, ?_, ?_⟩
  · intro exprs h
    constructor <;> simp [mkBooleanExpression, h, isError]
  · intro exprs h
    simp [mkBooleanExpression, h, isError]
  · intro name ent attrs n v hmem hdict
    exact mkSIE_error_of_attrs name ent attrs
      (mkSIEAttributes_error_of_mem n v attrs hmem (mkSIEAttribute_error n v (Or.inl hdict)))
  · intro name ent attrs n v t hmem hdict ht
    exact mkSIE_error_of_attrs name ent attrs
      (mkSIEAttributes_error_of_mem n v attrs hmem
        (mkSIEAttribute_error n v (Or.inr ⟨t, hdict, ht⟩)))
  · intro name prop attrs n v hmem hdict
    exact mkSIP_error_of_attrs name prop attrs
      (mkSIPAttributes_error_of_mem n v attrs hmem (mkSIPAttribute_error n v (Or.inl hdict)))
  · intro name prop attrs n v t hmem hdict ht
    exact mkSIP_error_of_attrs name prop attrs
      (mkSIPAttributes_error_of_mem n v attrs hmem
        (mkSIPAttribute_error n v (Or.inr ⟨t, hdict, ht⟩)))
  · exact mkSIE_error_no_score
  · exact mkSIP_error_no_score
  · exact mkSIE_error_min_lt_one
  · exact mkSIE_error_min_gt_max

/-- C3 witness: one concrete rejected input per validation rule. -/
theorem C3_construction_errors_witness :
    isError (mkBooleanExpression .AND [.propertyLeaf propLeafRed]) = true ∧
    isError (mkBooleanExpression .OR [.propertyLeaf propLeafRed]) = true ∧
    isError (mkBooleanExpression .NOT []) = true ∧
    isError (mkScenarioImageEntity "a" catEntity [("foo", PyVal.int 1)]) = true ∧
    isError (mkScenarioImageEntity "b" catEntity [("score", PyVal.int 1)]) = true ∧
    isError (mkScenarioImageProperty "c" redProperty [("foo", PyVal.int 1)]) = true ∧
    isError (mkScenarioImageProperty "d" redProperty [("score", PyVal.str "x")]) = true ∧
    isError (mkScenarioImageEntity "e" catEntity [("min", PyVal.int 2)]) = true ∧
    isError (mkScenarioImageProperty "f" redProperty []) = true ∧
    isError (mkScenarioImageEntity "g" catEntity
      [("score", PyVal.float 1), ("min", PyVal.int 0)]) = true ∧
    isError (mkScenarioImageEntity "h" catEntity
      [("score", PyVal.float 1), ("min", PyVal.int 5), ("max", PyVal.int 2)]) = true := by
  refine ⟨(C3_construction_errors.1 _ (by decide)).1,
    (C3_construction_errors.1 _ (by decide)).2,
    C3_construction_errors.2.1 [] (by decide),
    C3_construction_errors.2.2.1 "a" catEntity _ "foo" (PyVal.int 1) (by decide) rfl,
    C3_construction_errors.2.2.2.1 "b" catEntity _ "score" (PyVal.int 1) .floatT
      (by decide) rfl (by decide),
    C3_construction_errors.2.2.2.2.1 "c" redProperty _ "foo" (PyVal.int 1) (by decide) rfl,
    C3_construction_errors.2.2.2.2.2.1 "d" redProperty _ "score" (PyVal.str "x") .floatT
      (by decide) rfl (by decide),
    C3_construction_errors.2.2.2.2.2.2.1 "e" catEntity _ (by decide),
    C3_construction_errors.2.2.2.2.2.2.2.1 "f" redProperty _ (by decide),
    C3_construction_errors.2.2.2.2.2.2.2.2.1 "g" catEntity _ 0 rfl (by decide),
    C3_construction_errors.2.2.2.2.2.2.2.2.2 "h" catEntity _ 5 2 rfl rfl (by decide)
      (by decide)⟩
